import Mathlib

/-!
Shallow embedding of the "Isothermal Machian Universe" repository
(`lab/api.py`, `lab/simulation/cosmology.py`, `lab/simulation/black_hole.py`,
`lab/simulation/galaxy_rotation.py`, `lab/simulation/nbody.py`,
`lab/simulation/analysis_ppn_rigorous.py`, `lab/analysis_curvature.py`,
`lab/analysis_stability.py`, `lab/simulation/bouncing_bbn_model.py`,
`lab/simulation/experiment_bounce.py`).

Python floats are modelled by exact rationals (`ℚ`).  A Python scalar
division is modelled by `cdiv`, which flags division by zero explicitly
(`Except DivErr ℚ`) where a claim is about division-by-zero behaviour; in
code paths where a claim is only about structure (shapes, ordering, which
arguments are used), plain total `ℚ` arithmetic is used.  Values that can be
the float `inf` are modelled by `FVal`.  Calls into the numerical library
(`np.sqrt`, `np.exp`, `np.log`, `np.cos`, `np.sin`, float `**`, `np.pi`,
`scipy.integrate.quad`, `scipy.optimize.brentq`, `scipy.optimize.curve_fit`)
are modelled by explicit function parameters (`FloatOps`, integrator
arguments, and outcome arguments), since their numeric results are external
to the repository; the repository code is embedded exactly around them.
-/

/-- Error raised by a Python scalar division with zero divisor. -/
inductive DivErr where
  | divByZero
deriving Repr, DecidableEq

/-- Checked division: models Python scalar `a / b` (raises on `b = 0`). -/
def cdiv (a b : ℚ) : Except DivErr ℚ :=
  if b = 0 then .error .divByZero else .ok (a / b)

/-- A float value that may be positive infinity (`float('inf')`). -/
inductive FVal where
  | fin (q : ℚ)
  | inf
deriving Repr, DecidableEq

/-- External transcendental float operations (numpy/math library calls).
The repository treats these as black boxes; so does the embedding. -/
structure FloatOps where
  sqrt : ℚ → ℚ
  exp : ℚ → ℚ
  log : ℚ → ℚ
  cos : ℚ → ℚ
  sin : ℚ → ℚ
  pow : ℚ → ℚ → ℚ
  pi : ℚ

/-- A concrete instantiation of the external float operations, used to
evaluate the embedded code on concrete inputs.  `sqrt 0 = 0` matches
`np.sqrt(0.0) = 0.0`; the other fields are arbitrary stand-ins. -/
def constFops : FloatOps where
  sqrt := fun q => if q = 0 then 0 else 1
  exp := fun _ => 1
  log := fun _ => 0
  cos := fun _ => 0
  sin := fun _ => 1
  pow := fun _ _ => 1
  pi := 3

/-! ## `lab/simulation/cosmology.py` -/

/-- `H0 = 70.0` (km/s/Mpc). -/
def cosmo_H0 : ℚ := 70

/-- `H0_inv_Gyr = 977.8 / H0`. -/
def H0_inv_Gyr : ℚ := (9778/10) / cosmo_H0

/-- `get_mass_evolution_factor(z)`: `inf` for `z <= -0.99`, else `1/(1+z)`
(a Python scalar division, so modelled checked). -/
def get_mass_evolution_factor (z : ℚ) : Except DivErr FVal :=
  if z ≤ -(99/100) then .ok .inf
  else (cdiv 1 (1 + z)).map .fin

/-- `lookback_time_machian(z)`.  `quadM a b` stands for
`scipy.integrate.quad(integrand, a, b)[0]` with the module's fixed
integrand `1/hubble_parameter`. -/
def lookback_time_machian (quadM : ℚ → ℚ → ℚ) (z : ℚ) : FVal :=
  if z ≤ -(99/100) then .inf
  else .fin (quadM 0 z * H0_inv_Gyr)

/-- `lookback_time_lcdm(z)`.  `quadL a b` stands for the quad call with the
LCDM integrand `1/((1+z')*hubble_parameter(z'))`. -/
def lookback_time_lcdm (quadL : ℚ → ℚ → ℚ) (z : ℚ) : ℚ :=
  quadL 0 z * H0_inv_Gyr

/-! ## `lab/api.py`: GET `/api/cosmology/lookback` -/

/-- One point of the `/api/cosmology/lookback` response.  `none` models
JSON `null` (Python `None`). -/
structure LookbackPoint where
  z : ℚ
  machian_gyr : Option ℚ
  lcdm_gyr : Option ℚ
  mass_factor : Option ℚ
deriving Repr, DecidableEq

/-- `float(val) if val != float('inf') else None`. -/
def finToOption : FVal → Option ℚ
  | .inf => none
  | .fin q => some q

/-- `np.linspace(a, b, steps)` as a list of rationals. -/
def linspace (a b : ℚ) (steps : Nat) : List ℚ :=
  if steps = 0 then []
  else if steps = 1 then [a]
  else (List.range steps).map (fun i : ℕ => a + (b - a) * (i : ℚ) / ((steps : ℚ) - 1))

/-- The point `lab/api.py:get_lookback_time` builds for one redshift `z`. -/
def lookback_point (quadM quadL : ℚ → ℚ → ℚ) (z : ℚ) :
    Except DivErr LookbackPoint :=
  match get_mass_evolution_factor z with
  | .error e => .error e
  | .ok mf =>
    .ok { z := z
          machian_gyr := finToOption (lookback_time_machian quadM z)
          lcdm_gyr := if z ≥ 0 then some (lookback_time_lcdm quadL z) else none
          mass_factor := finToOption mf }

/-- Effectful map over a list, modelling the endpoint's `for`/`append` loop
(aborts at the first signalled error). -/
def mapME {α β : Type} (f : α → Except DivErr β) : List α → Except DivErr (List β)
  | [] => .ok []
  | a :: t =>
    match f a with
    | .error e => .error e
    | .ok b =>
      match mapME f t with
      | .error e => .error e
      | .ok bs => .ok (b :: bs)

/-- `GET /api/cosmology/lookback`: the list of data points. -/
def get_lookback_time (quadM quadL : ℚ → ℚ → ℚ) (min_z max_z : ℚ)
    (steps : Nat) : Except DivErr (List LookbackPoint) :=
  mapME (lookback_point quadM quadL) (linspace min_z max_z steps)

/-! ## Theorems for C10 -/

theorem lookback_point_ok_of_le (quadM quadL : ℚ → ℚ → ℚ) (z : ℚ)
    (h : z ≤ -(99/100)) :
    lookback_point quadM quadL z =
      .ok { z := z
            machian_gyr := none
            lcdm_gyr := if z ≥ 0 then some (lookback_time_lcdm quadL z) else none
            mass_factor := none } := by
  simp [lookback_point, get_mass_evolution_factor, lookback_time_machian, h,
    finToOption, Except.bind]

/-- Helper: membership in a successful `mapME` result comes from a
member of the input list. -/
theorem mem_mapME {α β : Type} (f : α → Except DivErr β) :
    ∀ (l : List α) (ys : List β), mapME f l = .ok ys →
      ∀ y ∈ ys, ∃ x ∈ l, f x = .ok y := by
  intro l
  induction l with
  | nil =>
    intro ys h y hy
    simp only [mapME] at h
    cases h
    simp at hy
  | cons a t ih =>
    intro ys h y hy
    simp only [mapME] at h
    cases hfa : f a with
    | error e => rw [hfa] at h; cases h
    | ok b =>
      rw [hfa] at h
      cases hft : mapME f t with
      | error e => rw [hft] at h; cases h
      | ok bs =>
        rw [hft] at h
        cases h
        rcases List.mem_cons.mp hy with hy | hy
        · exact ⟨a, List.mem_cons_self a t, by rw [hfa, hy]⟩
        · rcases ih bs hft y hy with ⟨x, hx, hfx⟩
          exact ⟨x, List.mem_cons_of_mem a hx, hfx⟩

/-- Helper: a successful lookback point for redshift `x` records `z = x`. -/
theorem lookback_point_z (quadM quadL : ℚ → ℚ → ℚ) (x : ℚ) (p : LookbackPoint)
    (h : lookback_point quadM quadL x = .ok p) : p.z = x := by
  simp only [lookback_point] at h
  cases hmf : get_mass_evolution_factor x with
  | error e => rw [hmf] at h; cases h
  | ok mf =>
    rw [hmf] at h
    cases h
    rfl

/-- C10: for every redshift `z ≤ -0.99`, `get_mass_evolution_factor` and
`lookback_time_machian` return positive infinity without performing the
division by `1+z` (the checked division never signals), and every point the
`/api/cosmology/lookback` endpoint returns whose redshift is `≤ -0.99` has
`machian_gyr = null` and `mass_factor = null`. -/
theorem c10_lookback_inf_to_null (quadM quadL : ℚ → ℚ → ℚ) (z : ℚ)
    (h : z ≤ -(99/100)) :
    get_mass_evolution_factor z = .ok .inf ∧
    lookback_time_machian quadM z = .inf ∧
    (∃ p, lookback_point quadM quadL z = .ok p ∧
       p.machian_gyr = none ∧ p.mass_factor = none) ∧
    (∀ (min_z max_z : ℚ) (steps : Nat) (pts : List LookbackPoint),
       get_lookback_time quadM quadL min_z max_z steps = .ok pts →
       ∀ p ∈ pts, p.z ≤ -(99/100) →
         p.machian_gyr = none ∧ p.mass_factor = none) := by
  refine ⟨by simp [get_mass_evolution_factor, h],
    by simp [lookback_time_machian, h], ⟨_, lookback_point_ok_of_le quadM quadL z h, rfl, rfl⟩, ?_⟩
  intro min_z max_z steps pts hok p hp hpz
  rcases mem_mapME _ _ _ hok p hp with ⟨x, _, hfx⟩
  have hzx : p.z = x := lookback_point_z quadM quadL x p hfx
  have hx : x ≤ -(99/100) := hzx ▸ hpz
  rw [lookback_point_ok_of_le quadM quadL x hx] at hfx
  cases hfx
  exact ⟨rfl, rfl⟩

/-! ## A JSON value model (for response shapes of `lab/api.py`) -/

/-- JSON values, as FastAPI serializes the endpoint return values. -/
inductive Json where
  | jnull
  | jnum (q : ℚ)
  | jbool (b : Bool)
  | jstr (s : String)
  | jarr (xs : List Json)
  | jobj (fields : List (String × Json))
deriving Repr

/-- Serialize an optional number (`None` becomes JSON `null`). -/
def optJson : Option ℚ → Json
  | none => .jnull
  | some q => .jnum q

/-- JSON dict for one `/api/cosmology/lookback` point. -/
def lookbackPointJson (p : LookbackPoint) : Json :=
  .jobj [("z", .jnum p.z), ("machian_gyr", optJson p.machian_gyr),
         ("lcdm_gyr", optJson p.lcdm_gyr), ("mass_factor", optJson p.mass_factor)]

/-- `GET /api/cosmology/lookback` serialized: the endpoint returns the bare
list `data`, i.e. a JSON array. -/
def get_lookback_time_json (quadM quadL : ℚ → ℚ → ℚ) (min_z max_z : ℚ)
    (steps : Nat) : Except DivErr Json :=
  match get_lookback_time quadM quadL min_z max_z steps with
  | .error e => .error e
  | .ok pts => .ok (.jarr (pts.map lookbackPointJson))

/-! ## `lab/simulation/galaxy_rotation.py` -/

/-- The parameter fields of `BaryonicMassGradient` (`self.m0`,
`self.scale_length`, `self.beta`); `self.G` is the fixed constant below. -/
structure BaryonicMassGradient where
  m0 : ℚ
  scale_length : ℚ
  beta : ℚ
deriving Repr, DecidableEq

/-- `self.G = 4.30091e-6` (kpc km^2 / (s^2 M_sun)). -/
def BMG_G : ℚ := 430091 / 10^11

/-- One element of `calculate_velocity_profile` (the numpy expressions are
elementwise over the radii array).  `ℚ` division totalises `0/0` to `0`,
which matches `np.nan_to_num` mapping the `nan` produced at `r = 0` to `0`;
`nan_to_num` is the identity elsewhere on this code path. -/
def velocity_at (fops : FloatOps) (sim : BaryonicMassGradient) (r : ℚ) : ℚ :=
  let M_enclosed := sim.m0 *
    (1 - (1 + r / sim.scale_length) * fops.exp (-r / sim.scale_length))
  let v_newtonian_sq := BMG_G * M_enclosed / r
  let inertia_factor :=
    if sim.beta > 0 then fops.pow (1 + r / sim.scale_length) (-sim.beta)
    else fops.exp (-r / sim.scale_length)
  fops.sqrt (v_newtonian_sq / inertia_factor)

/-- `BaryonicMassGradient.calculate_velocity_profile(radii)`. -/
def calculate_velocity_profile (fops : FloatOps) (sim : BaryonicMassGradient)
    (radii : List ℚ) : List ℚ :=
  radii.map (velocity_at fops sim)

/-- Outcome of the external `scipy.optimize.curve_fit` call: either optimal
parameters (with a covariance matrix) or a raised exception. -/
inductive CurveFitOutcome where
  | success (popt : BaryonicMassGradient) (pcov : List (List ℚ))
  | failure

/-- `BaryonicMassGradient.fit_model`.  `trials` is the sequence of parameter
vectors on which `curve_fit` evaluated the internal `model_func` (external
to the repository); each such call assigns `self.m0`, `self.scale_length`,
`self.beta`, which the fold records.  Returns the object state after the
call together with the returned `(popt, pcov)` pair, where
`(none, none)` models the `return None, None` of the `except` branch. -/
def fit_model (trials : List BaryonicMassGradient) (outcome : CurveFitOutcome)
    (sim : BaryonicMassGradient) :
    BaryonicMassGradient × Option BaryonicMassGradient × Option (List (List ℚ)) :=
  let simAfterTrials := trials.foldl (fun _ p => p) sim
  match outcome with
  | .success popt pcov => (popt, some popt, some pcov)
  | .failure => (simAfterTrials, none, none)

/-! ## `lab/simulation/analysis_ppn_rigorous.py` -/

/-- `M_PL_REDUCED = 2.435e18 * 1e9` eV. -/
def M_PL : ℚ := 2435 * 10^24

/-- `M_SYM = 2.44e15 * 1e9` eV. -/
def M_SYM : ℚ := 244 * 10^22

/-- `N_POWER = 3.0`. -/
def N_POWER : ℚ := 3

/-- `LAMBDA_VAC = 11.7e3` eV. -/
def LAMBDA_VAC : ℚ := 11700

/-- `C_VAC = LAMBDA_VAC**(4+N_POWER)`. -/
def C_VAC : ℚ := LAMBDA_VAC^(7 : ℕ)

/-- `M_SUN_KG = 1.989e30`. -/
def M_SUN_KG : ℚ := 1989 * 10^27

/-- `R_SUN_M = 6.957e8`. -/
def R_SUN_M : ℚ := 6957 * 10^5

/-- `scipy.constants.G = 6.67430e-11`. -/
def const_G : ℚ := 667430 / 10^16

/-- `scipy.constants.c = 299792458.0`. -/
def const_c : ℚ := 299792458

/-- `PHI_N_SURFACE = (const.G * M_SUN_KG) / (R_SUN_M * const.c**2)`. -/
def PHI_N_SURFACE : ℚ := const_G * M_SUN_KG / (R_SUN_M * const_c^2)

/-- The literal threshold `limit = 2.3e-5` of `run_analysis`. -/
def ppn_limit : ℚ := 23 / 10^6

/-- `phi_guess` of `find_phi_min`:
`((N_POWER * C_VAC * M_SYM**2) / rho)**(1.0/(N_POWER+2.0))` (float power is
an external library operation). -/
def ppn_phi_guess (fops : FloatOps) (rho : ℚ) : ℚ :=
  fops.pow ((N_POWER * C_VAC * M_SYM^2) / rho) (1 / (N_POWER + 2))

/-- Outcome of the external `scipy.optimize.brentq` call: a root, or the
`ValueError` it raises when the bracket does not straddle a sign change. -/
inductive BrentqOutcome where
  | root (x : ℚ)
  | valueError

/-- `find_phi_min(rho)`: returns the `brentq` root, falling back to
`phi_guess` when `brentq` raises `ValueError`. -/
def find_phi_min (fops : FloatOps) (br : BrentqOutcome) (rho : ℚ) : ℚ :=
  match br with
  | .root x => x
  | .valueError => ppn_phi_guess fops rho

/-- `beta_eff_surface = (M_PL / M_SYM) * (phi_sun / M_SYM)` in
`run_analysis` (also bound to `beta_local`). -/
def beta_eff_surface (phi_sun : ℚ) : ℚ := (M_PL / M_SYM) * (phi_sun / M_SYM)

/-- `force_ratio_symmetron = 2 * beta_local**2` in `run_analysis`. -/
def force_ratio_symmetron (phi_sun : ℚ) : ℚ := 2 * (beta_eff_surface phi_sun)^2

/-- The `[PASS]`/`[FAIL]` decision of `run_analysis`, as a function of the
two field values `phi_gal = find_phi_min(RHO_GAL_EV4)` and
`phi_sun = find_phi_min(RHO_SUN_EV4)` it computes: the code prints `[PASS]`
iff `force_ratio_symmetron < limit`. -/
def run_analysis_reports_pass (_phi_gal phi_sun : ℚ) : Bool :=
  force_ratio_symmetron phi_sun < ppn_limit

/-- The quantity `run_analysis` prints as `Thin Shell Epsilon`:
`epsilon = delta_phi / (6.0 * beta_local * M_PL * PHI_N_SURFACE)` with
`delta_phi = abs(phi_gal - phi_sun)`. -/
def thin_shell_epsilon (phi_gal phi_sun : ℚ) : ℚ :=
  |phi_gal - phi_sun| / (6 * beta_eff_surface phi_sun * M_PL * PHI_N_SURFACE)

/-! ## Theorems for C5, C9, C3 -/

/-- C5: optimizer calls are wrapped with fallbacks: `find_phi_min` returns
its closed-form `phi_guess` when `brentq` raises `ValueError`, and
`fit_model` returns `(None, None)` when `curve_fit` raises. -/
theorem c5_optimizer_fallbacks :
    (∀ (fops : FloatOps) (rho : ℚ),
       find_phi_min fops .valueError rho = ppn_phi_guess fops rho) ∧
    (∀ (trials : List BaryonicMassGradient) (sim : BaryonicMassGradient),
       (fit_model trials .failure sim).2 = (none, none)) :=
  ⟨fun _ _ => rfl, fun _ _ => rfl⟩

/-- C9: `fit_model` is not atomic on failure: every `model_func` call
assigns the trial parameters to the object fields, so after a failing fit
the object holds the last trial vector; concretely, fitting from the class
defaults with one trial `(1e10, 15, 5)` and a raising `curve_fit` returns
`(None, None)` while the fields hold the trial values, not the defaults. -/
theorem c9_fit_model_not_atomic :
    (∀ (sim trial : BaryonicMassGradient) (trials : List BaryonicMassGradient),
       fit_model (trials ++ [trial]) .failure sim = (trial, none, none)) ∧
    fit_model [⟨10000000000, 15, 5⟩] .failure ⟨2760000000, 89/100, 98/100⟩ =
      (⟨10000000000, 15, 5⟩, none, none) ∧
    decide ((⟨10000000000, 15, 5⟩ : BaryonicMassGradient) =
      ⟨2760000000, 89/100, 98/100⟩) = false := by
  refine ⟨fun sim trial trials => ?_, rfl, by decide⟩
  simp [fit_model, List.foldl_append]

/-- C3 counterexample: with field values `phi_gal = 1.66e17` and
`phi_sun = 6.2e11` (representative of the high/low density minima), the
analysis prints `[PASS]` (the compared quantity `2*beta_eff**2` is below
`2.3e-5`) while the computed thin-shell parameter is far above `2.3e-5`,
so `[PASS]` is not reported exactly when the thin-shell parameter is below
the threshold. -/
theorem c3_counterexample :
    run_analysis_reports_pass (166 * 10^15) (62 * 10^10) = true ∧
    ¬ (thin_shell_epsilon (166 * 10^15) (62 * 10^10) < ppn_limit) := by
  constructor
  · simp only [run_analysis_reports_pass, force_ratio_symmetron,
      beta_eff_surface, ppn_limit, M_PL, M_SYM, decide_eq_true_eq]
    norm_num
  · simp only [thin_shell_epsilon, beta_eff_surface, ppn_limit, M_PL, M_SYM,
      PHI_N_SURFACE, const_G, const_c, M_SUN_KG, R_SUN_M, not_lt]
    norm_num

/-- C3 amended: `run_analysis` checks the symmetron force ratio
`2 * beta_eff**2` against the literal threshold `2.3e-5` and prints `[PASS]`
exactly when that ratio is below it; the decision does not depend on the
thin-shell parameter (which is computed and printed afterwards), in
particular it is independent of `phi_gal`. -/
theorem c3_pass_iff_force_ratio (phi_gal phi_sun : ℚ) :
    (run_analysis_reports_pass phi_gal phi_sun = true ↔
       force_ratio_symmetron phi_sun < ppn_limit) ∧
    (∀ phi_gal2 : ℚ, run_analysis_reports_pass phi_gal2 phi_sun =
       run_analysis_reports_pass phi_gal phi_sun) :=
  ⟨by simp [run_analysis_reports_pass], fun _ => rfl⟩

/-! ## `lab/simulation/black_hole.py` -/

/-- `self.G = 6.67430e-11`. -/
def bh_G : ℚ := 66743 / 10^15

/-- `self.c = 2.99792e8`. -/
def bh_c : ℚ := 299792 * 10^3

/-- `self.M_sun = 1.989e30`. -/
def bh_M_sun : ℚ := 1989 * 10^27

/-- `lp = 1.616255e-35` (Planck length, in `get_entropy`). -/
def bh_lp : ℚ := 1616255 / 10^41

/-- `self.Rs = 2 * G * mass_kg / c**2` with `mass_kg = mass_solar * M_sun`. -/
def bh_Rs (mass_solar : ℚ) : ℚ := 2 * bh_G * (mass_solar * bh_M_sun) / bh_c^2

/-- `np.clip(q, 0.0, 1.0)`. -/
def clip01 (q : ℚ) : ℚ := max 0 (min q 1)

/-- The four per-step lists the infall loop appends to. -/
structure InfallData where
  tau : List ℚ
  t : List ℚ
  r : List ℚ
  v : List ℚ
deriving Repr, DecidableEq

/-- The `while current_r > 0 and step_count < max_steps` loop of
`simulate_infall`; `fuel` is the number of remaining allowed iterations
(`max_steps - step_count`, starting at the hard cap `5000`). -/
def infall_loop (fops : FloatOps) (Rs dt : ℚ) :
    Nat → ℚ → ℚ → ℚ → InfallData
  | 0, _, _, _ => ⟨[], [], [], []⟩
  | fuel+1, current_tau, current_t, current_r =>
    if current_r > 0 then
      let dr_dtau := if current_r > 0 then -bh_c * fops.sqrt (Rs / current_r) else 0
      let next_r := current_r + dr_dtau * dt
      let effective_r := max next_r (Rs * (1001/1000))
      let d_t := if next_r < Rs then dt * 1000 else dt / (1 - Rs / effective_r)
      let rest := infall_loop fops Rs dt fuel (current_tau + dt) (current_t + d_t) next_r
      ⟨current_tau :: rest.tau, current_t :: rest.t,
       (current_r / Rs) :: rest.r, dr_dtau :: rest.v⟩
    else ⟨[], [], [], []⟩

/-- The dict `simulate_infall` returns (`tau`, `t`, `r`, `v`, `encoding`). -/
structure InfallResult where
  tau : List ℚ
  t : List ℚ
  r : List ℚ
  v : List ℚ
  encoding : List ℚ
deriving Repr, DecidableEq

/-- `BlackHole.simulate_infall(start_distance_rs, steps, dt_proper)`.  The
`steps` argument appears in the signature (default `1000`) but the body
reads only `start_distance_rs` and `dt_proper`; the default timestep is
`t_fall_estimate / 1000.0` with a literal divisor. -/
def simulate_infall (fops : FloatOps) (mass_solar start_distance_rs : ℚ)
    (steps : Nat) (dt_proper : Option ℚ) : InfallResult :=
  let Rs := bh_Rs mass_solar
  let r0 := start_distance_rs * Rs
  let t_fall_estimate := fops.pow start_distance_rs (3/2) * (Rs / bh_c)
  let dt := match dt_proper with
    | none => t_fall_estimate / 1000
    | some d => d
  let data := infall_loop fops Rs dt 5000 0 0 r0
  ⟨data.tau, data.t, data.r, data.v,
   data.r.map (fun ri => clip01 (1 - (ri - 1)))⟩

/-- `BlackHole.get_entropy()`: Bekenstein-Hawking entropy in bits
(`np.pi` and `np.log(2)` are external float constants). -/
def get_entropy (fops : FloatOps) (mass_solar : ℚ) : ℚ :=
  let area := 4 * fops.pi * (bh_Rs mass_solar)^2
  let entropy_nats := area / (4 * bh_lp^2)
  entropy_nats / fops.log 2

/-- `GET /api/blackhole/infall` (`lab/api.py:get_infall_trajectory`). -/
def get_infall_trajectory (fops : FloatOps) (mass start_dist : ℚ)
    (steps : Nat) : Json :=
  let sim_data := simulate_infall fops mass start_dist steps none
  .jobj [("t_coordinate", .jarr (sim_data.t.map .jnum)),
         ("tau_proper", .jarr (sim_data.tau.map .jnum)),
         ("radius", .jarr (sim_data.r.map .jnum)),
         ("velocity", .jarr (sim_data.v.map .jnum)),
         ("encoding", .jarr (sim_data.encoding.map .jnum)),
         ("rs_km", .jnum (bh_Rs mass / 1000)),
         ("entropy_bits", .jnum (get_entropy fops mass))]

/-- `GET /api/galaxy/rotation` (`lab/api.py:get_rotation_curve`): the input
`m0` is scaled by `1e10`, radii are `np.linspace(0.1, max_r, 200)`, and the
response is the object `{"data": [...], "gpu": USE_GPU}`. -/
def get_rotation_curve (fops : FloatOps) (gpu : Bool)
    (m0 scale_length beta max_r : ℚ) : Json :=
  let m0_val := m0 * 10^10
  let sim : BaryonicMassGradient := ⟨m0_val, scale_length, beta⟩
  let r := linspace (1/10) max_r 200
  let v_machian := calculate_velocity_profile fops sim r
  .jobj [("data", .jarr (List.zipWith
            (fun ri vi => .jobj [("r", .jnum ri), ("v", .jnum vi)]) r v_machian)),
         ("gpu", .jbool gpu)]

/-! ## Theorems for C8 -/

/-- Helper: the infall loop produces at most `fuel` rows. -/
theorem infall_loop_tau_length_le (fops : FloatOps) (Rs dt : ℚ) :
    ∀ (fuel : Nat) (a b c : ℚ),
      (infall_loop fops Rs dt fuel a b c).tau.length ≤ fuel := by
  intro fuel
  induction fuel with
  | zero => intro a b c; simp [infall_loop]
  | succ n ih =>
    intro a b c
    simp only [infall_loop]
    split
    · simpa using Nat.succ_le_succ (ih _ _ _)
    · simp

/-- C8: `simulate_infall` ignores its `steps` parameter: for every mass,
start distance and explicit `dt_proper` (and equally for the default
`dt_proper = None`, whose divisor is the literal `1000`), two calls
differing only in `steps` return identical trajectory data, and hence the
`steps` query parameter of `GET /api/blackhole/infall` has no effect on the
response; the loop itself is bounded by the hard cap of `5000` rows. -/
theorem c8_simulate_infall_ignores_steps :
    (∀ (fops : FloatOps) (mass sd : ℚ) (dtp : Option ℚ) (s1 s2 : Nat),
       simulate_infall fops mass sd s1 dtp = simulate_infall fops mass sd s2 dtp) ∧
    (∀ (fops : FloatOps) (mass sd : ℚ) (s1 s2 : Nat),
       get_infall_trajectory fops mass sd s1 = get_infall_trajectory fops mass sd s2) ∧
    (∀ (fops : FloatOps) (mass sd : ℚ) (s : Nat) (dtp : Option ℚ),
       (simulate_infall fops mass sd s dtp).tau.length ≤ 5000) :=
  ⟨fun _ _ _ _ _ _ => rfl, fun _ _ _ _ _ => rfl,
   fun fops mass sd _ dtp => infall_loop_tau_length_le fops _ _ 5000 0 0 _⟩

/-! ## Theorems for C2 -/

/-- Helper: building a lookback point never signals a division by zero:
redshifts at or below `-0.99` take the `inf` guard, and above it the
divisor `1+z` is positive. -/
theorem lookback_point_isOk (quadM quadL : ℚ → ℚ → ℚ) (z : ℚ) :
    ∃ p, lookback_point quadM quadL z = .ok p := by
  by_cases h : z ≤ -(99/100)
  · exact ⟨_, lookback_point_ok_of_le quadM quadL z h⟩
  · push_neg at h
    have hz : (1 : ℚ) + z ≠ 0 := by
      intro h0
      nlinarith
    have hmf : get_mass_evolution_factor z = .ok (.fin (1 / (1 + z))) := by
      simp [get_mass_evolution_factor, not_le.mpr h, cdiv, hz, Except.map]
    refine ⟨{ z := z
              machian_gyr := finToOption (lookback_time_machian quadM z)
              lcdm_gyr := if z ≥ 0 then some (lookback_time_lcdm quadL z) else none
              mass_factor := finToOption (.fin (1 / (1 + z))) }, ?_⟩
    simp only [lookback_point, hmf]

/-- Helper: `mapME` succeeds, with one output per input, when `f` succeeds
on every element. -/
theorem mapME_ok_of {α β : Type} (f : α → Except DivErr β)
    (hf : ∀ x, ∃ y, f x = .ok y) :
    ∀ l : List α, ∃ ys, mapME f l = .ok ys ∧ ys.length = l.length := by
  intro l
  induction l with
  | nil => exact ⟨[], rfl, rfl⟩
  | cons a t ih =>
    rcases hf a with ⟨b, hb⟩
    rcases ih with ⟨bs, hbs, hlen⟩
    refine ⟨b :: bs, ?_, by simp [hlen]⟩
    simp [mapME, hb, hbs]

/-- Helper: `linspace a b steps` has exactly `steps` entries. -/
theorem linspace_length (a b : ℚ) (steps : Nat) :
    (linspace a b steps).length = steps := by
  unfold linspace
  split
  · simp [*]
  · split
    · simp [*]
    · rw [List.length_map, List.length_range]

/-- C2 amended: `GET /api/cosmology/lookback` returns a bare JSON array
(one point per `linspace` step, `steps` of them); `GET /api/galaxy/rotation`
and `GET /api/blackhole/infall` return JSON objects that wrap the computed
arrays: the rotation data sits under the `data` key (200 `{r, v}` points,
next to a `gpu` flag) and the infall trajectory under the
`t_coordinate`/`tau_proper`/`radius`/`velocity`/`encoding` keys (next to
`rs_km` and `entropy_bits`), not bare JSON arrays. -/
theorem c2_endpoint_response_shapes :
    (∀ (quadM quadL : ℚ → ℚ → ℚ) (min_z max_z : ℚ) (steps : Nat),
       ∃ pts : List LookbackPoint,
         get_lookback_time quadM quadL min_z max_z steps = .ok pts ∧
         pts.length = steps ∧
         get_lookback_time_json quadM quadL min_z max_z steps =
           .ok (.jarr (pts.map lookbackPointJson))) ∧
    (∀ (fops : FloatOps) (gpu : Bool) (m0 sl beta max_r : ℚ),
       ∃ pts : List Json,
         get_rotation_curve fops gpu m0 sl beta max_r =
           .jobj [("data", .jarr pts), ("gpu", .jbool gpu)] ∧
         pts.length = 200) ∧
    (∀ (fops : FloatOps) (mass sd : ℚ) (steps : Nat),
       ∃ ts taus rs vs es : List Json, ∃ rk eb : ℚ,
         get_infall_trajectory fops mass sd steps =
           .jobj [("t_coordinate", .jarr ts), ("tau_proper", .jarr taus),
                  ("radius", .jarr rs), ("velocity", .jarr vs),
                  ("encoding", .jarr es), ("rs_km", .jnum rk),
                  ("entropy_bits", .jnum eb)]) := by
  refine ⟨?_, ?_, ?_⟩
  · intro quadM quadL min_z max_z steps
    rcases mapME_ok_of (lookback_point quadM quadL)
        (lookback_point_isOk quadM quadL) (linspace min_z max_z steps) with
      ⟨pts, hok, hlen⟩
    refine ⟨pts, hok, ?_, ?_⟩
    · rw [hlen, linspace_length]
    · simp only [get_lookback_time_json, get_lookback_time] at *
      rw [hok]
  · intro fops gpu m0 sl beta max_r
    refine ⟨_, rfl, ?_⟩
    simp [List.length_zipWith, calculate_velocity_profile, linspace_length]
  · intro fops mass sd steps
    exact ⟨_, _, _, _, _, _, _, rfl⟩

/-- C2 counterexample: at the endpoints' default query parameters, the
rotation-curve and infall responses are JSON objects, not JSON arrays, so
it is false that each of the three GET data endpoints returns a JSON
array. -/
theorem c2_counterexample :
    (¬ ∃ xs : List Json,
       get_rotation_curve constFops false 10 15 5 50 = .jarr xs) ∧
    (¬ ∃ xs : List Json,
       get_infall_trajectory constFops 10 10 1000 = .jarr xs) := by
  constructor
  · rintro ⟨xs, h⟩
    simp only [get_rotation_curve] at h
    cases h
  · rintro ⟨xs, h⟩
    simp only [get_infall_trajectory] at h
    cases h

/-! ## `lab/analysis_curvature.py`, `lab/analysis_stability.py`,
`lab/simulation/bouncing_bbn_model.py`, `lab/simulation/experiment_bounce.py`
(scalar-field right-hand sides and potentials, with division-by-zero
tracked explicitly) -/

/-- Shared module constants of `analysis_curvature.py` and
`analysis_stability.py`: `OMEGA_BD = 1000.0`. -/
def bounce_OMEGA_BD : ℚ := 1000

/-- `RHO_M0 = 1.0`. -/
def bounce_RHO_M0 : ℚ := 1

/-- `V0 = 10.0`. -/
def bounce_V0 : ℚ := 10

/-- `C_THERM = 50.0`. -/
def bounce_C_THERM : ℚ := 50

/-- `K_WALL = 50.0`. -/
def bounce_K_WALL : ℚ := 50

/-- Is an evaluation free of division by zero? -/
def isOkE {α : Type} : Except DivErr α → Bool
  | .ok _ => true
  | .error _ => false

/-- The common body of `derivatives(t, y)` in `analysis_curvature.py` and
`analysis_stability.py` (the two files' bodies are line-for-line identical
after their respective clamp), evaluated on the already-clamped `phi`. -/
def bounce_rhs_core (fops : FloatOps) (phi phi_dot : ℚ) :
    Except DivErr (ℚ × ℚ) :=
  match cdiv (-2 * bounce_V0) (phi^3) with
  | .error e => .error e
  | .ok dV_vac =>
  let dV_therm := (1/2) * bounce_C_THERM
  match cdiv bounce_K_WALL phi with
  | .error e => .error e
  | .ok dV_em =>
  let V_prime := dV_vac + dV_therm + dV_em
  match cdiv bounce_RHO_M0 (fops.sqrt phi) with
  | .error e => .error e
  | .ok rho_m =>
  match cdiv (-(1/2)) phi with
  | .error e => .error e
  | .ok s_coef =>
  let S_matter := rho_m * s_coef
  let Total_Force := V_prime + S_matter
  match cdiv 1 (2 * phi) with
  | .error e => .error e
  | .ok g_coef =>
  let geometric_term := g_coef * phi_dot^2
  match cdiv phi (2 * bounce_OMEGA_BD) with
  | .error e => .error e
  | .ok f_coef =>
  let force_term := -(f_coef * Total_Force)
  .ok (phi_dot, geometric_term + force_term)

/-- `derivatives` of `analysis_curvature.py`: clamp `if phi < 1e-6: phi = 1e-6`,
then the shared body. -/
def curvature_derivatives (fops : FloatOps) (phi phi_dot : ℚ) :
    Except DivErr (ℚ × ℚ) :=
  bounce_rhs_core fops (if phi < 1/10^6 then 1/10^6 else phi) phi_dot

/-- `derivatives` of `analysis_stability.py`: clamp `if phi < 1e-4: phi = 1e-4`,
then the shared body. -/
def stability_derivatives (fops : FloatOps) (phi phi_dot : ℚ) :
    Except DivErr (ℚ × ℚ) :=
  bounce_rhs_core fops (if phi < 1/10^4 then 1/10^4 else phi) phi_dot

/-- `LAMBDA_EV = 11.7e3` in `bouncing_bbn_model.py`. -/
def LAMBDA_EV : ℚ := 11700

/-- `V_machian(phi)` of `bouncing_bbn_model.py`:
`phi_safe = np.abs(phi) + 1e-30`, then `LAMBDA_EV**(4+N_POWER) / phi_safe**N_POWER`
with `N_POWER = 3.0`. -/
def V_machian (phi : ℚ) : Except DivErr ℚ :=
  let phi_safe := |phi| + 1/10^30
  cdiv (LAMBDA_EV^(7 : ℕ)) (phi_safe^3)

/-- `experiment_bounce.py` constants: `V0 = 1.5`. -/
def xb_V0 : ℚ := 3/2

/-- `C_THERM = 500.0` in `experiment_bounce.py`. -/
def xb_C_THERM : ℚ := 500

/-- `K_WALL = 5.0` in `experiment_bounce.py`. -/
def xb_K_WALL : ℚ := 5

/-- `derivatives(t, y)` of `experiment_bounce.py`, a scalar-field ODE
right-hand side that divides by `phi` (and by `np.sqrt(phi)`) with no clamp
whatsoever. -/
def experiment_bounce_derivatives (fops : FloatOps) (ln_a phi phi_dot : ℚ) :
    Except DivErr (ℚ × ℚ × ℚ) :=
  let _a := fops.exp ln_a
  match cdiv 1 (fops.sqrt phi) with
  | .error e => .error e
  | .ok _Temp =>
  match cdiv xb_V0 (phi^2) with
  | .error e => .error e
  | .ok V_vac =>
  match cdiv (-2 * xb_V0) (phi^3) with
  | .error e => .error e
  | .ok dV_vac =>
  let V_therm := (1/2) * xb_C_THERM * phi
  let dV_therm := (1/2) * xb_C_THERM
  let V_em := xb_K_WALL * fops.log phi
  match cdiv xb_K_WALL phi with
  | .error e => .error e
  | .ok dV_em =>
  let V_tot := V_vac + V_therm + V_em
  let dV_tot := dV_vac + dV_therm + dV_em
  let rho_phi := (1/2) * phi_dot^2 + V_tot
  let H := fops.sqrt |rho_phi|
  .ok (H, phi_dot, -3 * H * phi_dot - dV_tot)

/-! ## Theorems for C4 -/

/-- Helper: the shared clamped body never divides by zero when evaluated at
a positive `phi` (the library square root of a positive number being
positive). -/
theorem bounce_rhs_core_isOk (fops : FloatOps)
    (hsq : ∀ q : ℚ, 0 < q → 0 < fops.sqrt q) (phi phi_dot : ℚ)
    (hphi : 0 < phi) :
    isOkE (bounce_rhs_core fops phi phi_dot) = true := by
  have h3 : phi^3 ≠ 0 := pow_ne_zero 3 (ne_of_gt hphi)
  have h1 : phi ≠ 0 := ne_of_gt hphi
  have hs : fops.sqrt phi ≠ 0 := ne_of_gt (hsq phi hphi)
  have h2 : (2 : ℚ) * phi ≠ 0 := by positivity
  have hw : (2 : ℚ) * bounce_OMEGA_BD ≠ 0 := by norm_num [bounce_OMEGA_BD]
  simp [bounce_rhs_core, cdiv, h3, h1, hs, h2, hw, isOkE]

/-- C4 amended: the scalar-field right-hand sides of `analysis_curvature.py`
and `analysis_stability.py` first clamp `phi` up to their small positive
thresholds (`1e-6`, `1e-4`), and the potential `V_machian` of
`bouncing_bbn_model.py` replaces `phi` by `|phi| + 1e-30`, so these three
evaluations perform no division by zero for any input state; but this does
not extend to every scalar-field right-hand side in the repository (see the
counterexample: `experiment_bounce.py` divides by `phi` unclamped). -/
theorem c4_clamped_rhs_no_div_by_zero (fops : FloatOps)
    (hsq : ∀ q : ℚ, 0 < q → 0 < fops.sqrt q) (phi phi_dot : ℚ) :
    isOkE (curvature_derivatives fops phi phi_dot) = true ∧
    isOkE (stability_derivatives fops phi phi_dot) = true ∧
    isOkE (V_machian phi) = true := by
  refine ⟨?_, ?_, ?_⟩
  · refine bounce_rhs_core_isOk fops hsq _ phi_dot ?_
    split
    · norm_num
    · rename_i h
      push_neg at h
      calc (0 : ℚ) < 1/10^6 := by norm_num
        _ ≤ phi := h
  · refine bounce_rhs_core_isOk fops hsq _ phi_dot ?_
    split
    · norm_num
    · rename_i h
      push_neg at h
      calc (0 : ℚ) < 1/10^4 := by norm_num
        _ ≤ phi := h
  · have hsafe : ((|phi| + 1/10^30)^3 : ℚ) ≠ 0 := by positivity
    simp only [V_machian, cdiv, isOkE]
    rw [if_neg hsafe]

/-- C4 witness: the amended theorem applied to a concrete library square
root and the concrete state `phi = 0`, `phi_dot = 1` (precisely where the
clamps matter). -/
theorem c4_clamped_rhs_no_div_by_zero_witness :
    isOkE (curvature_derivatives constFops 0 1) = true ∧
    isOkE (stability_derivatives constFops 0 1) = true ∧
    isOkE (V_machian 0) = true :=
  c4_clamped_rhs_no_div_by_zero constFops
    (fun q hq => by simp [constFops, ne_of_gt hq]) 0 1

/-- C4 counterexample: `derivatives` of `experiment_bounce.py` is a
scalar-field ODE right-hand side that divides by `phi` without any
clamping: at the state `phi = 0` (with `phi_dot = 0.05`, the file's
initial push, and `ln_a = 0`) the evaluation divides by zero, refuting the
claim that every such right-hand side replaces small `phi` before
dividing. -/
theorem c4_counterexample :
    experiment_bounce_derivatives constFops 0 0 (1/20) =
      .error .divByZero := by
  have h : constFops.sqrt 0 = 0 := by simp [constFops]
  simp [experiment_bounce_derivatives, cdiv, h]

/-! ## `lab/simulation/nbody.py` and the `/ws/nbody` WebSocket handler -/

/-- The state of `NBodySimulator` (`self.n_particles`, `self.physics`,
`self.x`, `self.y`, `self.vx`, `self.vy`; the initial `radii`, `angles`
and `velocities` arrays are only used during construction). -/
structure NBodyState where
  n_particles : Nat
  physics : BaryonicMassGradient
  x : List ℚ
  y : List ℚ
  vx : List ℚ
  vy : List ℚ
deriving Repr

/-- `NBodySimulator.__init__`.  `radii` and `angles` stand for the two
`cp.random.uniform(..., n_particles)` draws (external randomness), each of
length `n_particles`. -/
def nbody_init (fops : FloatOps) (n_particles : Nat)
    (m0 scale_length beta : ℚ) (radii angles : List ℚ) : NBodyState :=
  let physics : BaryonicMassGradient := ⟨m0, scale_length, beta⟩
  let velocities := calculate_velocity_profile fops physics radii
  { n_particles := n_particles
    physics := physics
    x := List.zipWith (fun r a => r * fops.cos a) radii angles
    y := List.zipWith (fun r a => r * fops.sin a) radii angles
    vx := List.zipWith (fun v a => -v * fops.sin a) velocities angles
    vy := List.zipWith (fun v a => v * fops.cos a) velocities angles }

/-- `NBodySimulator.step(dt)`: the elementwise numpy updates
(`r`, `v_mag`, `a_mag`, `ax`, `ay`, then the Euler velocity and position
updates, the position update reading the already-updated velocity). -/
def nbody_step (fops : FloatOps) (dt : ℚ) (s : NBodyState) : NBodyState :=
  let r := List.zipWith (fun xi yi => fops.sqrt (xi^2 + yi^2)) s.x s.y
  let v_mag := calculate_velocity_profile fops s.physics r
  let a_mag := List.zipWith (fun vi ri => vi^2 / ri) v_mag r
  let ax := List.zipWith (fun ai p => -ai * p) a_mag
    (List.zipWith (fun xi ri => xi / ri) s.x r)
  let ay := List.zipWith (fun ai p => -ai * p) a_mag
    (List.zipWith (fun yi ri => yi / ri) s.y r)
  let vx2 := List.zipWith (fun v acc => v + acc * dt) s.vx ax
  let vy2 := List.zipWith (fun v acc => v + acc * dt) s.vy ay
  let x2 := List.zipWith (fun p v => p + v * dt) s.x vx2
  let y2 := List.zipWith (fun p v => p + v * dt) s.y vy2
  { s with x := x2, y := y2, vx := vx2, vy := vy2 }

/-- The initialization JSON payload of `/ws/nbody`: `params.get(key, default)`
reads these four optional keys. -/
structure WsParams where
  n_particles : Option Nat
  m0 : Option ℚ
  scale_length : Option ℚ
  beta : Option ℚ

/-- The arguments the handler passes to `NBodySimulator(...)`. -/
structure NBodyArgs where
  n_particles : Nat
  m0 : ℚ
  scale_length : ℚ
  beta : ℚ
deriving Repr, DecidableEq

/-- The parameter extraction of `nbody_websocket`:
`params.get("n_particles", 1000)`, `params.get("m0", 10.0) * 1e10`,
`params.get("scale_length", 15.0)`, `params.get("beta", 5.0)`. -/
def ws_init_args (p : WsParams) : NBodyArgs :=
  { n_particles := p.n_particles.getD 1000
    m0 := p.m0.getD 10 * 10^10
    scale_length := p.scale_length.getD 15
    beta := p.beta.getD 5 }

/-- The simulator `nbody_websocket` constructs from the payload. -/
def ws_handler_sim (fops : FloatOps) (p : WsParams)
    (radii angles : List ℚ) : NBodyState :=
  let a := ws_init_args p
  nbody_init fops a.n_particles a.m0 a.scale_length a.beta radii angles

/-- Observable actions of one pass of the `while True` streaming loop. -/
inductive WsEvent where
  | stepPhysics (dt : ℚ)
  | sendFrame (x y : List ℚ)
  | sleepSecs (s : ℚ)

/-- One iteration of the `while True` loop of `nbody_websocket`:
`sim.step(dt=0.01)`, `send_json({x, y})` with the stepped positions, then
`asyncio.sleep(0.01)`. -/
def ws_iteration (fops : FloatOps) (s : NBodyState) : NBodyState × List WsEvent :=
  let s2 := nbody_step fops (1/100) s
  (s2, [.stepPhysics (1/100), .sendFrame s2.x s2.y, .sleepSecs (1/100)])

/-- The event trace of `k` iterations of the streaming loop (the loop runs
until the client disconnects; `k` is the number of completed iterations at
any point). -/
def ws_stream (fops : FloatOps) : Nat → NBodyState → List WsEvent
  | 0, _ => []
  | k+1, s =>
    let p := ws_iteration fops s
    p.2 ++ ws_stream fops k p.1

/-- A trace consists of repeated compute-serialize-sleep blocks: a physics
step with `dt = 0.01`, one frame whose two position lists have length `n`,
then a `0.01`-second sleep. -/
def good_trace (n : Nat) : List WsEvent → Bool
  | [] => true
  | .stepPhysics d :: .sendFrame x y :: .sleepSecs t :: rest =>
    decide (d = 1/100) && decide (x.length = n) && decide (y.length = n) &&
      decide (t = 1/100) && good_trace n rest
  | _ => false

/-- Number of frames sent in a trace. -/
def num_frames : List WsEvent → Nat
  | [] => 0
  | .sendFrame _ _ :: rest => num_frames rest + 1
  | _ :: rest => num_frames rest

/-- The length invariant of the particle arrays. -/
def nbody_inv (s : NBodyState) : Prop :=
  s.x.length = s.n_particles ∧ s.y.length = s.n_particles ∧
  s.vx.length = s.n_particles ∧ s.vy.length = s.n_particles

/-! ## Theorems for C1 and C7 -/

/-- Helper: construction satisfies the length invariant when the two random
draws have length `n_particles`, and records the passed parameters. -/
theorem nbody_init_inv (fops : FloatOps) (n : Nat) (m0 sl beta : ℚ)
    (radii angles : List ℚ) (hr : radii.length = n) (ha : angles.length = n) :
    nbody_inv (nbody_init fops n m0 sl beta radii angles) ∧
    (nbody_init fops n m0 sl beta radii angles).physics = ⟨m0, sl, beta⟩ ∧
    (nbody_init fops n m0 sl beta radii angles).n_particles = n := by
  refine ⟨⟨?_, ?_, ?_, ?_⟩, rfl, rfl⟩ <;>
    simp [nbody_init, nbody_inv, List.length_zipWith,
      calculate_velocity_profile, hr, ha]

/-- Helper: one physics step preserves the length invariant, the particle
count and the physics parameters. -/
theorem nbody_step_inv (fops : FloatOps) (dt : ℚ) (s : NBodyState)
    (h : nbody_inv s) :
    nbody_inv (nbody_step fops dt s) ∧
    (nbody_step fops dt s).n_particles = s.n_particles := by
  obtain ⟨hx, hy, hvx, hvy⟩ := h
  refine ⟨⟨?_, ?_, ?_, ?_⟩, rfl⟩ <;>
    simp [nbody_step, nbody_inv, List.length_zipWith,
      calculate_velocity_profile, hx, hy, hvx, hvy]

/-- C1: from any simulator state whose arrays hold `n_particles` entries,
every iteration of the `/ws/nbody` streaming loop advances the simulator by
exactly one `dt = 0.01` step, sends one `{x, y}` frame whose two lists each
hold the `n_particles` particle positions, and sleeps `0.01` seconds, in
this compute-serialize-sleep order; over `k` iterations the trace is `k`
such blocks with exactly `k` frames. -/
theorem c1_ws_stream_blocks (fops : FloatOps) (k : Nat) (s : NBodyState)
    (h : nbody_inv s) :
    good_trace s.n_particles (ws_stream fops k s) = true ∧
    num_frames (ws_stream fops k s) = k := by
  induction k generalizing s with
  | zero => exact ⟨rfl, rfl⟩
  | succ k ih =>
    obtain ⟨hinv2, hn2⟩ := nbody_step_inv fops (1/100) s h
    obtain ⟨ihg, ihn⟩ := ih (nbody_step fops (1/100) s) hinv2
    rw [hn2] at ihg
    have hx : (nbody_step fops (1/100) s).x.length = s.n_particles := by
      rw [hinv2.1, hn2]
    have hy : (nbody_step fops (1/100) s).y.length = s.n_particles := by
      rw [hinv2.2.1, hn2]
    constructor
    · simp only [ws_stream, ws_iteration, List.cons_append, List.nil_append,
        good_trace, Bool.and_eq_true, decide_eq_true_eq]
      exact ⟨⟨⟨⟨trivial, hx⟩, hy⟩, trivial⟩, ihg⟩
    · show num_frames (ws_stream fops k (nbody_step fops (1/100) s)) + 1 = k + 1
      rw [ihn]

/-- C1 witness: a concrete two-particle simulator (concrete library
operations, concrete random draws) streams one well-formed block. -/
theorem c1_ws_stream_blocks_witness :
    good_trace (nbody_init constFops 2 (10^11) 15 5 [1, 2] [0, 1]).n_particles
      (ws_stream constFops 1 (nbody_init constFops 2 (10^11) 15 5 [1, 2] [0, 1])) = true ∧
    num_frames (ws_stream constFops 1 (nbody_init constFops 2 (10^11) 15 5 [1, 2] [0, 1])) = 1 :=
  c1_ws_stream_blocks constFops 1 _ ⟨rfl, rfl, rfl, rfl⟩

/-- C7: the handler constructs the simulator with `n_particles` defaulting
to `1000`, `scale_length` to `15.0` and `beta` to `5.0` when the keys are
absent, and passes the supplied `m0` (default `10.0`) multiplied by `1e10`;
the constructed simulator carries exactly these arguments. -/
theorem c7_ws_init_defaults (p : WsParams) (fops : FloatOps)
    (radii angles : List ℚ) :
    (p.n_particles = none → (ws_init_args p).n_particles = 1000) ∧
    (p.scale_length = none → (ws_init_args p).scale_length = 15) ∧
    (p.beta = none → (ws_init_args p).beta = 5) ∧
    (p.m0 = none → (ws_init_args p).m0 = 10 * 10^10) ∧
    (∀ v : ℚ, p.m0 = some v → (ws_init_args p).m0 = v * 10^10) ∧
    (ws_handler_sim fops p radii angles).physics =
      ⟨(ws_init_args p).m0, (ws_init_args p).scale_length, (ws_init_args p).beta⟩ ∧
    (ws_handler_sim fops p radii angles).n_particles = (ws_init_args p).n_particles := by
  refine ⟨fun h => by simp [ws_init_args, h],
    fun h => by simp [ws_init_args, h],
    fun h => by simp [ws_init_args, h],
    fun h => by simp [ws_init_args, h],
    fun v h => by simp [ws_init_args, h],
    rfl, rfl⟩

/-- C7 witness: a payload supplying only `m0 = 3` yields the defaults for
the other three parameters and `m0` scaled by `1e10`. -/
theorem c7_ws_init_defaults_witness :
    (ws_init_args ⟨none, some 3, none, none⟩).n_particles = 1000 ∧
    (ws_init_args ⟨none, some 3, none, none⟩).scale_length = 15 ∧
    (ws_init_args ⟨none, some 3, none, none⟩).beta = 5 ∧
    (ws_init_args ⟨none, some 3, none, none⟩).m0 = 3 * 10^10 :=
  ⟨(c7_ws_init_defaults ⟨none, some 3, none, none⟩ constFops [] []).1 rfl,
   (c7_ws_init_defaults ⟨none, some 3, none, none⟩ constFops [] []).2.1 rfl,
   (c7_ws_init_defaults ⟨none, some 3, none, none⟩ constFops [] []).2.2.1 rfl,
   (c7_ws_init_defaults ⟨none, some 3, none, none⟩ constFops [] []).2.2.2.2.1 3 rfl⟩

/-! ## The exception branches of `nbody_websocket` (C6) -/

/-- How the `try` body of `nbody_websocket` ends: the client disconnected
(`WebSocketDisconnect`) or some other exception was raised. -/
inductive HandlerOutcome where
  | disconnect
  | otherError (msg : String)

/-- Observable actions of the `except` clauses. -/
inductive HandlerAction where
  | printed (s : String)
  | closedWs
deriving DecidableEq, Repr

/-- The two `except` clauses of `nbody_websocket`: the actions performed
and whether the handler then terminates normally (`true`; neither branch
re-raises). -/
def nbody_ws_exception_handling : HandlerOutcome → List HandlerAction × Bool
  | .disconnect =>
    ([.printed "Client disconnected from N-Body simulation"], true)
  | .otherError e =>
    ([.printed ("Error in N-Body simulation: " ++ e), .closedWs], true)

/-- C6: on `WebSocketDisconnect` the handler prints a message and
terminates normally without closing (its action list has no close and the
normal-termination flag is set); any other exception is handled by the
separate branch that prints the error and then closes the websocket, also
without re-raising. -/
theorem c6_ws_exception_branches :
    nbody_ws_exception_handling .disconnect =
      ([.printed "Client disconnected from N-Body simulation"], true) ∧
    (nbody_ws_exception_handling .disconnect).1.contains .closedWs = false ∧
    (∀ msg : String, nbody_ws_exception_handling (.otherError msg) =
      ([.printed ("Error in N-Body simulation: " ++ msg), .closedWs], true)) :=
  ⟨rfl, rfl, fun _ => rfl⟩

/-- C10 witness: at `z = -1` (where `1+z = 0`) with a trivial integrator,
the guard fires: both values are `inf` and the point carries `null`s. -/
theorem c10_lookback_inf_to_null_witness :
    get_mass_evolution_factor (-1) = .ok .inf ∧
    lookback_time_machian (fun _ _ => 0) (-1) = .inf ∧
    (∃ p, lookback_point (fun _ _ => 0) (fun _ _ => 0) (-1) = .ok p ∧
       p.machian_gyr = none ∧ p.mass_factor = none) ∧
    (∀ (min_z max_z : ℚ) (steps : Nat) (pts : List LookbackPoint),
       get_lookback_time (fun _ _ => 0) (fun _ _ => 0) min_z max_z steps = .ok pts →
       ∀ p ∈ pts, p.z ≤ -(99/100) →
         p.machian_gyr = none ∧ p.mass_factor = none) :=
  c10_lookback_inf_to_null (fun _ _ => 0) (fun _ _ => 0) (-1) (by norm_num)
